import Mathlib

/-!
Verification of the markupr demo-GIF generator
(`src/assets/generate_demo_gif.py`).

The script is embedded shallowly:

* configuration constants are copied verbatim;
* a `Line` of frame content is either a plain string, a list of
  `(text, color)` segments, or some other Python value (`Line.other`),
  mirroring the dynamic `isinstance` dispatch in `create_frame`;
* `create_frame` is modelled symbolically: a `Frame` records the canvas
  dimensions, the list of drawing operations issued to Pillow (title bar
  plus one text op per drawn segment), and the content list the renderer
  was handed (the transcript snapshot the frame shows);
* text metrics (`font.getbbox`) are external, so the renderer is
  parametrised by a width function `w : String → Nat` standing for
  `bbox[2] - bbox[0]`;
* `generate_frames` is the full hand-authored script, phase by phase;
* the encoder (`Image.save`, `Image.quantize`, `convert`) is external:
  it is modelled by abstract image types and a `PILOps` record, while the
  driver logic of `main` / `optimize_gif` (what is saved, with which
  durations, loop count and path, and the 5 MiB size guard) is embedded
  exactly.
-/

/-- 8-bit RGB triple, as used by Pillow `fill=` arguments. -/
abbrev RGB := Nat × Nat × Nat

-- --- Configuration (lines 12-30 of the source) ---

def WIDTH : Nat := 800
def HEIGHT : Nat := 720
def BG_COLOR : RGB := (30, 30, 46)
def TEXT_COLOR : RGB := (205, 214, 244)
def DIM_COLOR : RGB := (127, 132, 156)
def GREEN : RGB := (166, 227, 161)
def CYAN : RGB := (137, 220, 235)
def YELLOW : RGB := (249, 226, 175)
def MAGENTA : RGB := (245, 194, 231)
def BLUE : RGB := (137, 180, 250)
def WHITE : RGB := (255, 255, 255)
def PROMPT_COLOR : RGB := (166, 227, 161)
def BORDER_COLOR : RGB := (69, 71, 90)

def FONT_SIZE : Nat := 15
def LINE_HEIGHT : Nat := 22
def PADDING_X : Nat := 24
def PADDING_Y : Nat := 50
def TITLE_BAR_H : Nat := 38

/-- File name of the output artifact; the full `OUTPUT_PATH` joins it to the
script's own directory, which is filesystem-dependent. -/
def OUTPUT_NAME : String := "demo-cli.gif"

/-- One line of frame content.  In the Python source a line is whatever
value sits in the list handed to `create_frame`: a `str`, a `list` of
`(text, color)` tuples, or anything else (drawn as nothing). -/
inductive Line where
  | plain (s : String)
  | segs (l : List (String × RGB))
  | other
  deriving DecidableEq

/-- A drawing operation issued to the Pillow `ImageDraw` object. -/
inductive Op where
  | rect (x0 y0 x1 y1 : Nat) (fill : RGB)
  | lineOp (x0 y0 x1 y1 : Nat) (color : RGB) (lineWidth : Nat)
  | ellipse (x0 y0 x1 y1 : Nat) (fill : RGB)
  | text (x y : Nat) (s : String) (color : RGB)
  deriving DecidableEq

/-- The y coordinate at which an operation draws (text baseline origin). -/
def Op.yPos : Op → Nat
  | .rect _ y _ _ _ => y
  | .lineOp _ y _ _ _ _ => y
  | .ellipse _ y _ _ _ => y
  | .text _ y _ _ => y

/-- A rendered frame: fixed canvas dimensions, the ops drawn onto it, and
the content list the renderer was handed (the state snapshot it shows). -/
structure Frame where
  width : Nat
  height : Nat
  ops : List Op
  content : List Line
  deriving DecidableEq

def colors_dots : List RGB := [(255, 95, 86), (255, 189, 46), (39, 201, 63)]

/-- `draw_title_bar` (source lines 45-59): title-bar rectangle, 1px bottom
border, three traffic-light dots at `cx = 20 + i*22`, centered caption. -/
def draw_title_bar : List Op :=
  [Op.rect 0 0 WIDTH TITLE_BAR_H (40, 42, 54),
   Op.lineOp 0 TITLE_BAR_H WIDTH TITLE_BAR_H BORDER_COLOR 1]
  ++ (colors_dots.enum.map fun ic =>
        Op.ellipse (20 + ic.1 * 22 - 6) (TITLE_BAR_H / 2 - 6)
          (20 + ic.1 * 22 + 6) (TITLE_BAR_H / 2 + 6) ic.2)
  ++ [Op.text (WIDTH / 2 - 70) 11 "Terminal -- markupr" DIM_COLOR]

/-- The inner segment loop of `create_frame` (source lines 74-78): draw each
segment at the running cursor `x`, then advance `x` by the rendered width
`w text` of the segment (`bbox[2] - bbox[0]`). -/
def renderSegs (w : String → Nat) (y : Nat) : Nat → List (String × RGB) → List Op
  | _, [] => []
  | x, (t, c) :: rest => Op.text x y t c :: renderSegs w y (x + w t) rest

/-- One iteration of the line loop of `create_frame` (source lines 69-78):
a plain string is drawn in `TEXT_COLOR` at the left margin, a segment list
is drawn segment by segment, anything else draws nothing. -/
def renderLine (w : String → Nat) (y : Nat) : Line → List Op
  | .plain s => [Op.text PADDING_X y s TEXT_COLOR]
  | .segs l => renderSegs w y PADDING_X l
  | .other => []

/-- The line loop of `create_frame`: `y` starts at `PADDING_Y` and advances
by `LINE_HEIGHT` after every element, whatever it drew. -/
def renderLines (w : String → Nat) : Nat → List Line → List Op
  | _, [] => []
  | y, l :: rest => renderLine w y l ++ renderLines w (y + LINE_HEIGHT) rest

/-- `create_frame` (source lines 62-81): a `WIDTH × HEIGHT` canvas, the
title bar, then the stacked content lines starting at `PADDING_Y`. -/
def create_frame (w : String → Nat) (lines : List Line) : Frame :=
  { width := WIDTH
    height := HEIGHT
    ops := draw_title_bar ++ renderLines w PADDING_Y lines
    content := lines }

/-- `build_cursor_line` (source lines 84-87): green prompt, the first
`typed_so_far` characters of `text`, and a white block cursor. -/
def build_cursor_line (text : String) (typed_so_far : Nat) : Line :=
  Line.segs [("$ ", PROMPT_COLOR), (text.take typed_so_far, TEXT_COLOR), ("█", WHITE)]

-- --- The animation sequence (`generate_frames`, source lines 94-272) ---
-- Each entry pairs the content handed to `create_frame` with its duration
-- in milliseconds, in emission order.

/-- Phase 0 (source lines 97-104): blink the bare prompt three times. -/
def idleFrames : List (List Line × Nat) :=
  (List.range 3).flatMap fun _ =>
    [([Line.segs [("$ ", PROMPT_COLOR), ("█", WHITE)]], 400),
     ([Line.segs [("$ ", PROMPT_COLOR)]], 300)]

/-- The literal command typed in phase 1 (source line 107). -/
def command : String := "npx markupr analyze ./demo-recording.mov"

/-- The keystroke delay for prefix length `i` (source lines 110-115):
45 ms default, 100 ms after a space, 400 ms after the final character. -/
def typingDelay (i : Nat) : Nat :=
  if command.data.getD (i - 1) ' ' = ' ' then 100
  else if i = command.length then 400
  else 45

/-- Phase 1 (source lines 108-116): one frame per prefix length
`i = 1 .. len(command)`, each showing the cursor line for that prefix. -/
def typingFrames : List (List Line × Nat) :=
  (List.range' 1 command.length).map fun i =>
    ([build_cursor_line command i], typingDelay i)

/-- The fully typed command without cursor (source line 119). -/
def full_cmd : Line := Line.segs [("$ ", PROMPT_COLOR), (command, TEXT_COLOR)]

/-- Source lines 123-128. -/
def header_lines : List Line :=
  [Line.segs [("$ ", PROMPT_COLOR), (command, TEXT_COLOR)],
   Line.segs [],
   Line.segs [("  markupr", CYAN), (" v2.6.0", DIM_COLOR),
     (" — Intelligent Developer Feedback", DIM_COLOR)],
   Line.segs []]

/-- Source lines 134-137. -/
def analyzing : List Line :=
  header_lines ++
  [Line.segs [("  ▸ ", YELLOW), ("Analyzing: ", TEXT_COLOR),
     ("demo-recording.mov", WHITE), (" (2m 34s)", DIM_COLOR)],
   Line.segs []]

/-- Source lines 144-146. -/
def t1 : List Line :=
  analyzing ++
  [Line.segs [("  ■ ", CYAN), ("Transcription", WHITE)]]

/-- Source lines 149-152. -/
def t2 : List Line :=
  analyzing ++
  [Line.segs [("  ■ ", CYAN), ("Transcription", WHITE)],
   Line.segs [("    ├─ ", DIM_COLOR), ("Using: ", TEXT_COLOR),
     ("Local Whisper (base model)", BLUE)]]

/-- Source lines 155-159. -/
def t3 : List Line :=
  analyzing ++
  [Line.segs [("  ■ ", CYAN), ("Transcription", WHITE)],
   Line.segs [("    ├─ ", DIM_COLOR), ("Using: ", TEXT_COLOR),
     ("Local Whisper (base model)", BLUE)],
   Line.segs [("    ├─ ", DIM_COLOR), ("Processing audio...", DIM_COLOR)]]

/-- Source lines 162-167. -/
def t4 : List Line :=
  analyzing ++
  [Line.segs [("  ■ ", CYAN), ("Transcription", WHITE)],
   Line.segs [("    ├─ ", DIM_COLOR), ("Using: ", TEXT_COLOR),
     ("Local Whisper (base model)", BLUE)],
   Line.segs [("    ├─ ", DIM_COLOR), ("Processing audio...", DIM_COLOR)],
   Line.segs [("    └─ ", DIM_COLOR), ("✓ ", GREEN),
     ("12 segments transcribed (2m 34s)", TEXT_COLOR)]]

/-- Source lines 171-173. -/
def base2 : List Line := t4 ++ [Line.segs []]

/-- Source lines 175-177. -/
def f1 : List Line :=
  base2 ++ [Line.segs [("  ■ ", CYAN), ("Frame Extraction", WHITE)]]

/-- Source lines 180-183. -/
def f2 : List Line :=
  base2 ++
  [Line.segs [("  ■ ", CYAN), ("Frame Extraction", WHITE)],
   Line.segs [("    ├─ ", DIM_COLOR),
     ("Detecting key moments from transcript...", DIM_COLOR)]]

/-- Source lines 186-190. -/
def f3 : List Line :=
  base2 ++
  [Line.segs [("  ■ ", CYAN), ("Frame Extraction", WHITE)],
   Line.segs [("    ├─ ", DIM_COLOR),
     ("Detecting key moments from transcript...", DIM_COLOR)],
   Line.segs [("    ├─ ", DIM_COLOR),
     ("Extracting frames at timestamps...", DIM_COLOR)]]

/-- Source lines 193-198. -/
def f4 : List Line :=
  base2 ++
  [Line.segs [("  ■ ", CYAN), ("Frame Extraction", WHITE)],
   Line.segs [("    ├─ ", DIM_COLOR),
     ("Detecting key moments from transcript...", DIM_COLOR)],
   Line.segs [("    ├─ ", DIM_COLOR),
     ("Extracting frames at timestamps...", DIM_COLOR)],
   Line.segs [("    └─ ", DIM_COLOR), ("✓ ", GREEN),
     ("8 frames captured", TEXT_COLOR)]]

/-- Source lines 202-204. -/
def base3 : List Line := f4 ++ [Line.segs []]

/-- Source lines 206-208. -/
def d1 : List Line :=
  base3 ++ [Line.segs [("  ■ ", CYAN), ("Document Generation", WHITE)]]

/-- Source lines 211-214. -/
def d2 : List Line :=
  base3 ++
  [Line.segs [("  ■ ", CYAN), ("Document Generation", WHITE)],
   Line.segs [("    ├─ ", DIM_COLOR),
     ("Correlating screenshots with transcript...", DIM_COLOR)]]

/-- Source lines 217-221. -/
def d3 : List Line :=
  base3 ++
  [Line.segs [("  ■ ", CYAN), ("Document Generation", WHITE)],
   Line.segs [("    ├─ ", DIM_COLOR),
     ("Correlating screenshots with transcript...", DIM_COLOR)],
   Line.segs [("    ├─ ", DIM_COLOR),
     ("Building structured markdown...", DIM_COLOR)]]

/-- Source lines 224-229. -/
def d4 : List Line :=
  base3 ++
  [Line.segs [("  ■ ", CYAN), ("Document Generation", WHITE)],
   Line.segs [("    ├─ ", DIM_COLOR),
     ("Correlating screenshots with transcript...", DIM_COLOR)],
   Line.segs [("    ├─ ", DIM_COLOR),
     ("Building structured markdown...", DIM_COLOR)],
   Line.segs [("    └─ ", DIM_COLOR), ("✓ ", GREEN),
     ("Document ready", TEXT_COLOR)]]

/-- Source lines 233-235. -/
def base4 : List Line := d4 ++ [Line.segs []]

/-- The horizontal rule, `"━" * 43` (source line 238). -/
def rule : String := String.mk (List.replicate 43 '━')

/-- Source lines 239-241. -/
def s1 : List Line :=
  base4 ++ [Line.segs [("  ", TEXT_COLOR), (rule, DIM_COLOR)]]

/-- Source lines 244-247. -/
def s2 : List Line :=
  s1 ++
  [Line.segs [],
   Line.segs [("  ✓ ", GREEN), ("Output: ", TEXT_COLOR),
     ("./markupr-output/demo-recording.md", CYAN)]]

/-- Source lines 250-253. -/
def s3 : List Line :=
  s2 ++
  [Line.segs [],
   Line.segs [("    Markdown document with ", DIM_COLOR), ("8", WHITE),
     (" embedded screenshots", DIM_COLOR)]]

/-- Source lines 256-258. -/
def s4 : List Line :=
  s3 ++
  [Line.segs [("    ", TEXT_COLOR), ("3", WHITE), (" issues identified, ", DIM_COLOR),
     ("2", WHITE), (" suggestions captured", DIM_COLOR)]]

/-- Source lines 261-263. -/
def s5 : List Line :=
  s4 ++ [Line.segs [("    File path copied to clipboard", DIM_COLOR)]]

/-- Source lines 266-269. -/
def s6 : List Line :=
  s5 ++
  [Line.segs [],
   Line.segs [("  Paste into your AI coding agent to action feedback ", DIM_COLOR),
     ("→", YELLOW)]]

/-- The full emission order of `generate_frames`: every
`frames.append((create_frame(content), duration))` of source lines 94-272,
with its content and duration. -/
def script : List (List Line × Nat) :=
  idleFrames ++ typingFrames ++
  [([full_cmd], 600),
   (header_lines, 800),
   (analyzing, 1000),
   (t1, 500), (t2, 600), (t3, 1800), (t4, 800),
   (f1, 500), (f2, 1200), (f3, 1400), (f4, 800),
   (d1, 500), (d2, 1000), (d3, 1200), (d4, 800),
   (s1, 600), (s2, 800), (s3, 500), (s4, 500), (s5, 600), (s6, 3000)]

/-- `generate_frames` (source lines 94-272): render every scripted content
with `create_frame` and pair it with its duration. -/
def generate_frames (w : String → Nat) : List (Frame × Nat) :=
  script.map fun p => (create_frame w p.1, p.2)

-- --- Encoding, size guard and re-encoding (`main` / `optimize_gif`) ---

/-- Pillow quantization methods (the source uses `Image.Quantize.MEDIANCUT`). -/
inductive QuantMethod where
  | MEDIANCUT
  | MAXCOVERAGE
  | FASTOCTREE
  deriving DecidableEq

/-- The external Pillow image operations used by `optimize_gif`: palette
quantization to a given color count with a given method, and conversion of
a palettized image back to RGB.  `Img` is a full-channel image, `PalImg` a
palettized one; both are abstract. -/
structure PILOps (Img PalImg : Type) where
  quantize : Img → Nat → QuantMethod → PalImg
  convertRGB : PalImg → Img

/-- What one `Image.save(path, save_all=True, append_images=..., duration=...,
loop=0, optimize=True)` call encodes: the frame list in order, the per-frame
duration list, the loop count, the `optimize` flag, and the target path. -/
structure GifData (Img : Type) where
  path : String
  frames : List Img
  durations : List Nat
  loop : Nat
  optimizeFlag : Bool
  deriving DecidableEq

/-- The save call of `main` (source lines 285-292) and of `optimize_gif`
(source lines 312-319): all frames in list order, the given durations,
`loop=0`, `optimize=True`. -/
def saveGif {Img : Type} (path : String) (images : List Img)
    (durations : List Nat) : GifData Img :=
  { path := path
    frames := images
    durations := durations
    loop := 0
    optimizeFlag := true }

/-- The per-frame re-encoding transform of `optimize_gif` (source line 310):
`img.quantize(colors=64, method=Image.Quantize.MEDIANCUT).convert("RGB")`. -/
def quantize64 {Img PalImg : Type} (P : PILOps Img PalImg) (img : Img) : Img :=
  P.convertRGB (P.quantize img 64 QuantMethod.MEDIANCUT)

/-- `optimize_gif` (source lines 306-319): quantize every frame, convert
back to RGB, and re-save to the same path with the same duration list and
loop setting. -/
def optimize_gif {Img PalImg : Type} (P : PILOps Img PalImg) (path : String)
    (images : List Img) (durations : List Nat) : GifData Img :=
  saveGif path (images.map (quantize64 P)) durations

/-- The 5 MB threshold of `main` (source line 301): `size_mb > 5` with
`size_mb = size_bytes / (1024 * 1024)`.  The float division by `2^20` is
exact for any realistic file size, so the guard is exactly
`SIZE_LIMIT < size_bytes`. -/
def SIZE_LIMIT : Nat := 5 * 1024 * 1024

/-- The artifact produced by `main` (source lines 275-303) as a function of
the generated `(image, duration)` list, the external encoder size, and the
Pillow operations: save once, measure, and re-encode through `optimize_gif`
only if the measured size exceeds `SIZE_LIMIT`. -/
def mainPipeline {Img PalImg : Type} (P : PILOps Img PalImg)
    (sizeOf : GifData Img → Nat) (path : String)
    (frames : List (Img × Nat)) : GifData Img :=
  if SIZE_LIMIT < sizeOf (saveGif path (frames.map Prod.fst) (frames.map Prod.snd)) then
    optimize_gif P path (frames.map Prod.fst) (frames.map Prod.snd)
  else
    saveGif path (frames.map Prod.fst) (frames.map Prod.snd)

/-- Trivial Pillow-operation model on unit images, used to instantiate the
pipeline theorems at concrete inputs. -/
def unitOps : PILOps Unit Unit :=
  { quantize := fun _ _ _ => ()
    convertRGB := fun _ => () }

-- --- Font setup (source lines 35-42) ---

/-- The preferred font file of the source. -/
def MENLO : String := "/System/Library/Fonts/Menlo.ttc"

/-- The `try`/`except` font setup of source lines 35-42, with the fallible
`ImageFont.truetype` loader external: if any of the three loads raises, all
three roles (`font`, `font_bold`, `font_title`) fall back to the default
font, and the setup itself always returns (no exception escapes). -/
def fontSetup {F : Type} (truetype : String → Nat → Except Unit F)
    (load_default : F) : F × F × F :=
  match (truetype MENLO FONT_SIZE).bind fun f =>
        (truetype MENLO FONT_SIZE).bind fun f_bold =>
        (truetype MENLO 12).map fun f_title => (f, f_bold, f_title) with
  | .ok r => r
  | .error _ => (load_default, load_default, load_default)

/-- Visible-prefix length shown by a typing-phase frame content: the length
of the text between the prompt segment and the cursor segment. -/
def visibleLen : List Line → Nat
  | [Line.segs [_, (p, _), _]] => p.length
  | _ => 0

-- --- Helper lemmas ---

/-- Every op emitted by the segment loop is drawn at the row's `y`. -/
theorem renderSegs_yPos (w : String → Nat) (y : Nat) :
    ∀ (x : Nat) (l : List (String × RGB)), ∀ op ∈ renderSegs w y x l, op.yPos = y := by
  intro x l
  induction l generalizing x with
  | nil => intro op h; simp [renderSegs] at h
  | cons hd tl ih =>
    obtain ⟨t, c⟩ := hd
    intro op h
    rw [renderSegs, List.mem_cons] at h
    rcases h with h | h
    · subst h; rfl
    · exact ih _ op h

/-- Every op emitted for one content line is drawn at that line's `y`. -/
theorem renderLine_yPos (w : String → Nat) (y : Nat) (l : Line) :
    ∀ op ∈ renderLine w y l, op.yPos = y := by
  intro op h
  cases l with
  | plain s =>
    rw [renderLine, List.mem_singleton] at h
    subst h; rfl
  | segs segl => exact renderSegs_yPos w y PADDING_X segl op h
  | other => simp [renderLine] at h

/-- The line loop draws element `k` of the content list at
`y + k * LINE_HEIGHT`, one fixed row per element. -/
theorem renderLines_flatMap (w : String → Nat) (lines : List Line) (y : Nat) :
    renderLines w y lines =
      (List.range lines.length).flatMap fun k =>
        renderLine w (y + k * LINE_HEIGHT) (lines.getD k Line.other) := by
  induction lines generalizing y with
  | nil => rfl
  | cons l rest ih =>
    have hstep :
        (fun k => renderLine w (y + Nat.succ k * LINE_HEIGHT)
            ((l :: rest).getD (Nat.succ k) Line.other)) =
          fun k => renderLine w (y + LINE_HEIGHT + k * LINE_HEIGHT) (rest.getD k Line.other) := by
      funext k
      have harith : y + Nat.succ k * LINE_HEIGHT = y + LINE_HEIGHT + k * LINE_HEIGHT := by
        simp only [Nat.succ_eq_add_one]
        ring
      rw [harith, List.getD_cons_succ]
    calc renderLines w y (l :: rest)
        = renderLine w y l ++ renderLines w (y + LINE_HEIGHT) rest := rfl
      _ = renderLine w y l ++
            (List.range rest.length).flatMap
              (fun k => renderLine w (y + LINE_HEIGHT + k * LINE_HEIGHT)
                (rest.getD k Line.other)) := by rw [ih]
      _ = (List.range (l :: rest).length).flatMap
            (fun k => renderLine w (y + k * LINE_HEIGHT) ((l :: rest).getD k Line.other)) := by
          rw [List.length_cons, List.range_succ_eq_map, List.flatMap_cons, List.flatMap_map,
            hstep]
          simp

/-- The duration list of the generated sequence is the duration column of
the script, whatever the width function. -/
theorem generate_frames_snd (w : String → Nat) :
    (generate_frames w).map Prod.snd = script.map fun p => p.2 := by
  unfold generate_frames
  rw [List.map_map]
  rfl

/-- The per-frame content line counts of the generated sequence are the
line counts of the script contents, whatever the width function. -/
theorem generate_frames_contentLen (w : String → Nat) :
    ((generate_frames w).map fun p => p.1.content.length) =
      script.map fun p => p.1.length := by
  unfold generate_frames
  rw [List.map_map]
  rfl

-- --- Claim theorems ---

/-- C1.  Typing-phase correctness: for the typed command string of length
`N = 40`, the typing phase emits exactly `N` frames, one per prefix length;
their visible-prefix lengths form the strictly increasing sequence `1..N`;
every frame shows `"$ "`, the prefix, and the block-cursor glyph; and the
frame at prefix length `N` shows the entire command. -/
theorem typing_phase_correct :
    typingFrames.length = command.length ∧
    typingFrames.map (fun p => visibleLen p.1) = List.range' 1 command.length ∧
    List.Chain' (· < ·) (typingFrames.map fun p => visibleLen p.1) ∧
    typingFrames.map Prod.fst =
      (List.range' 1 command.length).map (fun i =>
        [Line.segs [("$ ", PROMPT_COLOR), (command.take i, TEXT_COLOR), ("█", WHITE)]]) ∧
    (typingFrames.getLastD ([], 0)).1 =
      [Line.segs [("$ ", PROMPT_COLOR), (command, TEXT_COLOR), ("█", WHITE)]] := by
  refine ⟨by decide, by decide, List.Pairwise.chain' (by decide), by decide, by decide⟩

/-- C6.  Idle-blink scenario: with the configured repeat count of 3, phase 0
yields exactly 6 frames whose durations alternate 400 ms (prompt with
cursor) and 300 ms (prompt without cursor), starting with 400 ms. -/
theorem idle_blink_scenario :
    idleFrames.length = 6 ∧
    idleFrames.map Prod.snd = [400, 300, 400, 300, 400, 300] ∧
    idleFrames =
      [([Line.segs [("$ ", PROMPT_COLOR), ("█", WHITE)]], 400),
       ([Line.segs [("$ ", PROMPT_COLOR)]], 300),
       ([Line.segs [("$ ", PROMPT_COLOR), ("█", WHITE)]], 400),
       ([Line.segs [("$ ", PROMPT_COLOR)]], 300),
       ([Line.segs [("$ ", PROMPT_COLOR), ("█", WHITE)]], 400),
       ([Line.segs [("$ ", PROMPT_COLOR)]], 300)] := by
  decide

/-- C5.  Typing timing policy: the typing-phase durations are
`typingDelay 1 .. typingDelay N`; any keystroke whose triggering character
(`command[i]` for the frame of prefix length `i+1`) is a space gets a
duration ≥ the 45 ms default, and the final keystroke's duration is
strictly greater than every interior keystroke's duration. -/
theorem typing_timing :
    typingFrames.map Prod.snd = (List.range' 1 command.length).map typingDelay ∧
    (∀ i : Nat, i < command.length →
      (command.data.getD i ' ' = ' ' → 45 ≤ typingDelay (i + 1)) ∧
      (i + 1 < command.length → typingDelay (i + 1) < typingDelay command.length)) := by
  exact ⟨by decide, by decide⟩

/-- Witness for C5 at concrete keystrokes: the space typed at index 3
(after `npx`) gets 100 ms ≥ 45 ms, and the first keystroke's 45 ms is less
than the final keystroke's 400 ms. -/
theorem typing_timing_witness :
    45 ≤ typingDelay 4 ∧ typingDelay 1 < typingDelay command.length :=
  ⟨(typing_timing.2 3 (by decide)).1 (by decide),
   (typing_timing.2 0 (by decide)).2 (by decide)⟩

/-- C7.  Final hold: the last frame of the generated sequence (3000 ms) has
a duration strictly greater than the duration of every other frame. -/
theorem final_hold (w : String → Nat) :
    ∀ d ∈ ((generate_frames w).map Prod.snd).dropLast,
      d < ((generate_frames w).map Prod.snd).getLastD 0 := by
  rw [generate_frames_snd w]
  decide

/-- Witness for C7: 400 ms (an interior duration) is less than the final
hold of the sequence generated with the zero width function. -/
theorem final_hold_witness :
    400 < ((generate_frames (fun _ => 0)).map Prod.snd).getLastD 0 :=
  final_hold (fun _ => 0) 400 (by decide)

/-- C3.  Transcript append-only invariant: the number of content lines
rendered per frame is non-decreasing from each frame to the next, and no
frame shows fewer lines than any earlier frame in the sequence. -/
theorem transcript_append_only (w : String → Nat) :
    List.Chain' (· ≤ ·) ((generate_frames w).map fun p => p.1.content.length) ∧
    List.Pairwise (· ≤ ·) ((generate_frames w).map fun p => p.1.content.length) := by
  rw [generate_frames_contentLen w]
  have hp : List.Pairwise (· ≤ ·) (script.map fun p => p.1.length) := by decide
  exact ⟨hp.chain', hp⟩

/-- C4.  Sequence well-formedness: the frame list and duration list
extracted by `main` have equal length, and `create_frame` yields a bitmap
of the configured 800 × 720 canvas regardless of its content argument, so
every frame of the generated sequence is 800 × 720. -/
theorem sequence_well_formed (w : String → Nat) :
    ((generate_frames w).map Prod.fst).length =
        ((generate_frames w).map Prod.snd).length ∧
    (∀ lines : List Line,
      (create_frame w lines).width = 800 ∧ (create_frame w lines).height = 720) ∧
    ∀ p ∈ generate_frames w, p.1.width = 800 ∧ p.1.height = 720 := by
  refine ⟨by simp, fun lines => ⟨rfl, rfl⟩, ?_⟩
  intro p hp
  rw [generate_frames, List.mem_map] at hp
  obtain ⟨q, hq, rfl⟩ := hp
  exact ⟨rfl, rfl⟩

/-- Witness for C4: the first frame of the sequence generated with the zero
width function is 800 × 720. -/
theorem sequence_well_formed_witness :
    (create_frame (fun _ => 0) [Line.segs [("$ ", PROMPT_COLOR), ("█", WHITE)]],
        (400 : Nat)).1.width = 800 ∧
    (create_frame (fun _ => 0) [Line.segs [("$ ", PROMPT_COLOR), ("█", WHITE)]],
        (400 : Nat)).1.height = 720 :=
  (sequence_well_formed (fun _ => 0)).2.2 _ (by decide)

/-- C2.  Size-guard behavior: under the external-encoder assumption `hq`
(re-encoding every frame through the 64-color palette reduction never makes
the encoded artifact larger), if the initially encoded artifact is at most
the 5 MiB threshold the re-encoder does not run and the artifact is exactly
the initial save; if it runs, the output keeps the frame count, the frame
order (each output frame is the quantized version of the input frame at
the same position), and the exact per-frame duration list, its size is ≤
the pre-re-encode size, and the result is the single `optimize_gif` pass —
no further remediation happens even if it is still oversized. -/
theorem size_guard_behavior {Img PalImg : Type} (P : PILOps Img PalImg)
    (sizeOf : GifData Img → Nat) (path : String) (frames : List (Img × Nat))
    (hq : ∀ (images : List Img) (durations : List Nat),
      sizeOf (saveGif path (images.map (quantize64 P)) durations) ≤
        sizeOf (saveGif path images durations)) :
    (sizeOf (saveGif path (frames.map Prod.fst) (frames.map Prod.snd)) ≤ SIZE_LIMIT →
      mainPipeline P sizeOf path frames =
        saveGif path (frames.map Prod.fst) (frames.map Prod.snd)) ∧
    (SIZE_LIMIT < sizeOf (saveGif path (frames.map Prod.fst) (frames.map Prod.snd)) →
      (mainPipeline P sizeOf path frames).frames =
          (frames.map Prod.fst).map (quantize64 P) ∧
      (mainPipeline P sizeOf path frames).frames.length =
          (frames.map Prod.fst).length ∧
      (mainPipeline P sizeOf path frames).durations = frames.map Prod.snd ∧
      sizeOf (mainPipeline P sizeOf path frames) ≤
          sizeOf (saveGif path (frames.map Prod.fst) (frames.map Prod.snd)) ∧
      mainPipeline P sizeOf path frames =
        optimize_gif P path (frames.map Prod.fst) (frames.map Prod.snd)) := by
  constructor
  · intro h
    unfold mainPipeline
    rw [if_neg (Nat.not_lt.mpr h)]
  · intro h
    unfold mainPipeline
    rw [if_pos h]
    refine ⟨rfl, ?_, rfl, hq _ _, rfl⟩
    simp [optimize_gif, saveGif]

/-- Witness for C2 with a one-frame sequence and an encoder model whose
size is always over the threshold: the re-encode branch runs and keeps the
duration list `[100]`. -/
theorem size_guard_behavior_witness :
    (mainPipeline unitOps (fun _ => SIZE_LIMIT + 1) "demo-cli.gif"
        ([((), 100)] : List (Unit × Nat))).durations = [100] :=
  ((size_guard_behavior unitOps (fun _ => SIZE_LIMIT + 1) "demo-cli.gif" [((), 100)]
      (fun _ _ => Nat.le_refl _)).2 (by decide)).2.2.1

/-- C8.  Re-encoding step: when the re-encoder runs (measured size above
`SIZE_LIMIT`), the artifact is re-saved at the same path with every frame
replaced by its `quantize(colors=64, method=MEDIANCUT)` palette reduction
converted back to RGB, in the same order, with the same duration list and
the same infinite-loop setting (`loop = 0`). -/
theorem reencode_step {Img PalImg : Type} (P : PILOps Img PalImg)
    (sizeOf : GifData Img → Nat) (path : String) (frames : List (Img × Nat))
    (hbig : SIZE_LIMIT <
      sizeOf (saveGif path (frames.map Prod.fst) (frames.map Prod.snd))) :
    mainPipeline P sizeOf path frames =
      { path := path
        frames := (frames.map Prod.fst).map
            fun img => P.convertRGB (P.quantize img 64 QuantMethod.MEDIANCUT)
        durations := frames.map Prod.snd
        loop := 0
        optimizeFlag := true } := by
  unfold mainPipeline
  rw [if_pos hbig]
  rfl

/-- Witness for C8 on a concrete one-frame input with an always-oversized
encoder model. -/
theorem reencode_step_witness :
    mainPipeline unitOps (fun _ => SIZE_LIMIT + 1) "demo-cli.gif"
        ([((), 100)] : List (Unit × Nat)) =
      { path := "demo-cli.gif"
        frames := [()]
        durations := [100]
        loop := 0
        optimizeFlag := true } :=
  reencode_step unitOps (fun _ => SIZE_LIMIT + 1) "demo-cli.gif" [((), 100)] (by decide)

/-- C9.  Font fallback: if loading the preferred font fails, the default
font is used for all three font roles (`font`, `font_bold`, `font_title`);
`fontSetup` is a total function, so no exception propagates from font setup
and rendering proceeds. -/
theorem font_fallback {F : Type} (truetype : String → Nat → Except Unit F) (d : F)
    (h : ∀ size, truetype MENLO size = Except.error ()) :
    fontSetup truetype d = (d, d, d) := by
  unfold fontSetup
  rw [h FONT_SIZE]
  rfl

/-- Witness for C9: an always-failing loader over `F = Nat` yields the
default font `7` in all three roles. -/
theorem font_fallback_witness :
    fontSetup (fun _ _ => (Except.error () : Except Unit Nat)) 7 = (7, 7, 7) :=
  font_fallback (fun _ _ => Except.error ()) 7 (fun _ => rfl)

/-- C10.  Implicit renderer row-advance: the renderer draws element `k` of
the content list at `y = PADDING_Y + k * LINE_HEIGHT` (every op emitted for
a line sits at that line's `y`), and advances by exactly one fixed
`LINE_HEIGHT` row per element; an empty segment list, or an element that is
neither a string nor a list, draws nothing but still occupies one row. -/
theorem renderer_row_advance :
    (∀ (w : String → Nat) (lines : List Line),
      (create_frame w lines).ops =
        draw_title_bar ++
          (List.range lines.length).flatMap fun k =>
            renderLine w (PADDING_Y + k * LINE_HEIGHT) (lines.getD k Line.other)) ∧
    (∀ (w : String → Nat) (y : Nat) (l : Line), ∀ op ∈ renderLine w y l,
      op.yPos = y) ∧
    (∀ (w : String → Nat) (y : Nat), renderLine w y (Line.segs []) = []) ∧
    (∀ (w : String → Nat) (y : Nat), renderLine w y Line.other = []) := by
  refine ⟨?_, renderLine_yPos, fun w y => rfl, fun w y => rfl⟩
  intro w lines
  show draw_title_bar ++ renderLines w PADDING_Y lines = _
  rw [renderLines_flatMap]

/-- Witness for C10: the single op drawn for the plain line content element
sits at the row's `y`. -/
theorem renderer_row_advance_witness :
    Op.yPos (Op.text PADDING_X PADDING_Y "hi" TEXT_COLOR) = PADDING_Y :=
  renderer_row_advance.2.1 (fun _ => 0) PADDING_Y (Line.plain "hi")
    (Op.text PADDING_X PADDING_Y "hi" TEXT_COLOR) (by decide)
